import Mathlib

/-! The export glue of the `wibble` package (`src/RcppExports.cpp`).

The file holds seven argument-marshalling stubs `_wibble_f`, the registration
table `CallEntries` and the load hook `R_init_wibble`.  The development embeds
them shallowly:

* native code is a state transformer over a world `σ` that either returns or
  throws an exception of type `ε` (`Eff`);
* what the file takes from the Rcpp headers and from the host runtime (the
  conversions `as<T>`, `wrap`, `RNGScope`, `BEGIN_RCPP`/`END_RCPP`,
  `R_registerRoutines`, `R_useDynamicSymbols`) is not part of the repository;
  conversions and the RNG scope are parameters (`Rcpp`, `Runtime`), the
  exception guard and the registration calls are modelled after their
  documented behaviour and say so;
* the seven native functions are only declared in the file; the stubs take
  them as a parameter (`Natives`).
-/

namespace Wibble

/-! ## Native computations -/

/-- A native computation: run in a world, it returns a value or throws, and
leaves a world behind in both cases. -/
def Eff (σ ε α : Type) : Type := σ → Except ε α × σ

namespace Eff

variable {σ ε α β : Type}

/-- Return without touching the world. -/
def ret (a : α) : Eff σ ε α := fun w => (Except.ok a, w)

/-- Throw without touching the world. -/
def throw (e : ε) : Eff σ ε α := fun w => (Except.error e, w)

/-- Sequencing: a throw of the first computation skips the second. -/
def andThen (m : Eff σ ε α) (f : α → Eff σ ε β) : Eff σ ε β := fun w =>
  match m w with
  | (Except.ok a, w1) => f a w1
  | (Except.error e, w1) => (Except.error e, w1)

/-- A conversion that reads no world: its result, or its exception. -/
def ofExcept (r : Except ε α) : Eff σ ε α := fun w => (r, w)

instance : Monad (Eff σ ε) where
  pure := ret
  bind := andThen

end Eff

/-! ## What the stubs take from Rcpp and from the host -/

/-- The C++ type `Rcpp::CharacterVector`: the strings of an R character
vector, in order. -/
abbrev CharacterVector : Type := List String

/-- The conversions of the Rcpp headers the stubs use, for one choice of the
host value type `SEXP` and of the Rcpp wrapper types `List` and `DataFrame`.
`as_T` is `Rcpp::as<T>` (what `input_parameter<T>` runs when the parameter is
passed on), which throws when the host value does not fit; `wrap_T` is
`Rcpp::wrap` at type `T`. -/
structure Rcpp (ε : Type) where
  SEXP : Type
  RcppList : Type
  DataFrame : Type
  as_string : SEXP → Except ε String
  as_CharacterVector : SEXP → Except ε CharacterVector
  as_List : SEXP → Except ε RcppList
  as_DataFrame : SEXP → Except ε DataFrame
  wrap_string : String → SEXP
  wrap_CharacterVector : CharacterVector → SEXP
  wrap_List : RcppList → SEXP
  wrap_DataFrame : DataFrame → SEXP

/-- The host side of `Rcpp::RNGScope`: what its constructor and its destructor
do to the world. -/
structure Runtime (σ : Type) where
  enterRNGScope : σ → σ
  exitRNGScope : σ → σ

/-- The seven native functions, as declared in the file (lines 9, 23, 37, 48,
59, 71 and 82); their bodies are elsewhere. -/
structure Natives (σ ε : Type) (R : Rcpp ε) where
  api_call : String → CharacterVector → CharacterVector → String → Eff σ ε CharacterVector
  api_calls : CharacterVector → CharacterVector → CharacterVector → CharacterVector →
    Eff σ ε CharacterVector
  webbler : String → Eff σ ε String
  path_source : String → Eff σ ε R.RcppList
  dots_example : R.RcppList → R.RcppList → Eff σ ε R.DataFrame
  lst_tbl : R.RcppList → Eff σ ε R.DataFrame
  add_data : R.DataFrame → R.RcppList → Eff σ ε R.DataFrame

/-- How a `.Call` of a stub ends: the stub returns a host value, or a
condition is raised in the host and the stub does not return. -/
inductive Outcome (S ε : Type) where
  | returned (value : S)
  | raised (condition : ε)
  deriving DecidableEq, Repr

/-- The pair `BEGIN_RCPP` ... `END_RCPP` around a stub body.  The two names
come from the Rcpp headers: a try block whose handlers catch every C++
exception and raise it as a condition of the host. -/
def BEGIN_RCPP {σ ε S : Type} (body : Eff σ ε S) : σ → Outcome S ε × σ := fun w =>
  match body w with
  | (Except.ok v, w1) => (Outcome.returned v, w1)
  | (Except.error e, w1) => (Outcome.raised e, w1)

/-- The local `Rcpp::RNGScope rcpp_rngScope_gen;`: constructed before the rest
of the body, destroyed when the body is left, by return or by throw. -/
def RNGScope {σ ε α : Type} (H : Runtime σ) (body : Eff σ ε α) : Eff σ ε α := fun w =>
  match body (H.enterRNGScope w) with
  | (r, w1) => (r, H.exitRNGScope w1)

/-! ## The stubs (lines 8 to 92) -/

section Stubs

variable {σ ε : Type} (R : Rcpp ε) (H : Runtime σ) (N : Natives σ ε R)

/-- Lines 10 to 21. The `input_parameter` objects convert where the native
function is called, written here from the first parameter to the last. -/
def _wibble_api_call (urlSEXP querySEXP valueSEXP pathSEXP : R.SEXP) :
    σ → Outcome R.SEXP ε × σ :=
  BEGIN_RCPP (RNGScope H (do
    let url ← Eff.ofExcept (R.as_string urlSEXP)
    let query ← Eff.ofExcept (R.as_CharacterVector querySEXP)
    let value ← Eff.ofExcept (R.as_CharacterVector valueSEXP)
    let path ← Eff.ofExcept (R.as_string pathSEXP)
    let rcpp_result_gen ← N.api_call url query value path
    pure (R.wrap_CharacterVector rcpp_result_gen)))

/-- Lines 24 to 35. -/
def _wibble_api_calls (urlSEXP querySEXP valueSEXP pathSEXP : R.SEXP) :
    σ → Outcome R.SEXP ε × σ :=
  BEGIN_RCPP (RNGScope H (do
    let url ← Eff.ofExcept (R.as_CharacterVector urlSEXP)
    let query ← Eff.ofExcept (R.as_CharacterVector querySEXP)
    let value ← Eff.ofExcept (R.as_CharacterVector valueSEXP)
    let path ← Eff.ofExcept (R.as_CharacterVector pathSEXP)
    let rcpp_result_gen ← N.api_calls url query value path
    pure (R.wrap_CharacterVector rcpp_result_gen)))

/-- Lines 38 to 46. -/
def _wibble_webbler (urlSEXP : R.SEXP) : σ → Outcome R.SEXP ε × σ :=
  BEGIN_RCPP (RNGScope H (do
    let url ← Eff.ofExcept (R.as_string urlSEXP)
    let rcpp_result_gen ← N.webbler url
    pure (R.wrap_string rcpp_result_gen)))

/-- Lines 49 to 57. -/
def _wibble_path_source (pathSEXP : R.SEXP) : σ → Outcome R.SEXP ε × σ :=
  BEGIN_RCPP (RNGScope H (do
    let path ← Eff.ofExcept (R.as_string pathSEXP)
    let rcpp_result_gen ← N.path_source path
    pure (R.wrap_List rcpp_result_gen)))

/-- Lines 60 to 69. -/
def _wibble_dots_example (dataSEXP dotsSEXP : R.SEXP) : σ → Outcome R.SEXP ε × σ :=
  BEGIN_RCPP (RNGScope H (do
    let data ← Eff.ofExcept (R.as_List dataSEXP)
    let dots ← Eff.ofExcept (R.as_List dotsSEXP)
    let rcpp_result_gen ← N.dots_example data dots
    pure (R.wrap_DataFrame rcpp_result_gen)))

/-- Lines 72 to 80. -/
def _wibble_lst_tbl (lstSEXP : R.SEXP) : σ → Outcome R.SEXP ε × σ :=
  BEGIN_RCPP (RNGScope H (do
    let lst ← Eff.ofExcept (R.as_List lstSEXP)
    let rcpp_result_gen ← N.lst_tbl lst
    pure (R.wrap_DataFrame rcpp_result_gen)))

/-- Lines 83 to 92. -/
def _wibble_add_data (dataSEXP lstSEXP : R.SEXP) : σ → Outcome R.SEXP ε × σ :=
  BEGIN_RCPP (RNGScope H (do
    let data ← Eff.ofExcept (R.as_DataFrame dataSEXP)
    let lst ← Eff.ofExcept (R.as_List lstSEXP)
    let rcpp_result_gen ← N.add_data data lst
    pure (R.wrap_DataFrame rcpp_result_gen)))

end Stubs

/-! ## Function pointers, signatures and the dispatch of a stub -/

/-- The seven functions this file defines with C linkage: the constructor
`_wibble_f` stands for the address `&_wibble_f`.  Distinct functions have
distinct addresses. -/
inductive Stub where
  | _wibble_api_call
  | _wibble_api_calls
  | _wibble_webbler
  | _wibble_path_source
  | _wibble_dots_example
  | _wibble_lst_tbl
  | _wibble_add_data
  deriving DecidableEq, Repr

/-- The seven native functions the file declares. -/
inductive NativeFn where
  | api_call
  | api_calls
  | webbler
  | path_source
  | dots_example
  | lst_tbl
  | add_data
  deriving DecidableEq, Repr

/-- All stubs, in the order of the file. -/
def Stub.all : List Stub :=
  [._wibble_api_call, ._wibble_api_calls, ._wibble_webbler, ._wibble_path_source,
    ._wibble_dots_example, ._wibble_lst_tbl, ._wibble_add_data]

/-- All declared native functions, in the order of the file. -/
def NativeFn.all : List NativeFn :=
  [.api_call, .api_calls, .webbler, .path_source, .dots_example, .lst_tbl, .add_data]

/-- The parameter and result types that occur in the declarations. -/
inductive CType where
  | string
  | CharacterVector
  | List
  | DataFrame
  deriving DecidableEq, Repr

/-- The identifier of a native function. -/
def NativeFn.name : NativeFn → String
  | .api_call => "api_call"
  | .api_calls => "api_calls"
  | .webbler => "webbler"
  | .path_source => "path_source"
  | .dots_example => "dots_example"
  | .lst_tbl => "lst_tbl"
  | .add_data => "add_data"

/-- The parameter list of each declaration (lines 9, 23, 37, 48, 59, 71, 82). -/
def NativeFn.params : NativeFn → List (CType × String)
  | .api_call => [(.string, "url"), (.CharacterVector, "query"), (.CharacterVector, "value"),
      (.string, "path")]
  | .api_calls => [(.CharacterVector, "url"), (.CharacterVector, "query"),
      (.CharacterVector, "value"), (.CharacterVector, "path")]
  | .webbler => [(.string, "url")]
  | .path_source => [(.string, "path")]
  | .dots_example => [(.List, "data"), (.List, "dots")]
  | .lst_tbl => [(.List, "lst")]
  | .add_data => [(.DataFrame, "data"), (.List, "lst")]

/-- The identifier of each stub (lines 10, 24, 38, 49, 60, 72, 83). -/
def Stub.symbol : Stub → String
  | ._wibble_api_call => "_wibble_api_call"
  | ._wibble_api_calls => "_wibble_api_calls"
  | ._wibble_webbler => "_wibble_webbler"
  | ._wibble_path_source => "_wibble_path_source"
  | ._wibble_dots_example => "_wibble_dots_example"
  | ._wibble_lst_tbl => "_wibble_lst_tbl"
  | ._wibble_add_data => "_wibble_add_data"

/-- The `SEXP` parameters of each stub (lines 10, 24, 38, 49, 60, 72, 83). -/
def Stub.params : Stub → List String
  | ._wibble_api_call => ["urlSEXP", "querySEXP", "valueSEXP", "pathSEXP"]
  | ._wibble_api_calls => ["urlSEXP", "querySEXP", "valueSEXP", "pathSEXP"]
  | ._wibble_webbler => ["urlSEXP"]
  | ._wibble_path_source => ["pathSEXP"]
  | ._wibble_dots_example => ["dataSEXP", "dotsSEXP"]
  | ._wibble_lst_tbl => ["lstSEXP"]
  | ._wibble_add_data => ["dataSEXP", "lstSEXP"]

/-- The native function named in the body of each stub (lines 18, 32, 43, 54,
66, 77, 89). -/
def Stub.callee : Stub → NativeFn
  | ._wibble_api_call => .api_call
  | ._wibble_api_calls => .api_calls
  | ._wibble_webbler => .webbler
  | ._wibble_path_source => .path_source
  | ._wibble_dots_example => .dots_example
  | ._wibble_lst_tbl => .lst_tbl
  | ._wibble_add_data => .add_data

/-- Calling through a stub's address with a list of host values, as the host's
`.Call` does: the function behind the address takes a fixed number of `SEXP`
arguments, and a call with another number of arguments has no meaning
(`none`). -/
def Stub.call {σ ε : Type} (R : Rcpp ε) (H : Runtime σ) (N : Natives σ ε R) :
    Stub → List R.SEXP → Option (σ → Outcome R.SEXP ε × σ)
  | ._wibble_api_call, [a, b, c, d] => some (Wibble._wibble_api_call R H N a b c d)
  | ._wibble_api_calls, [a, b, c, d] => some (Wibble._wibble_api_calls R H N a b c d)
  | ._wibble_webbler, [a] => some (Wibble._wibble_webbler R H N a)
  | ._wibble_path_source, [a] => some (Wibble._wibble_path_source R H N a)
  | ._wibble_dots_example, [a, b] => some (Wibble._wibble_dots_example R H N a b)
  | ._wibble_lst_tbl, [a] => some (Wibble._wibble_lst_tbl R H N a)
  | ._wibble_add_data, [a, b] => some (Wibble._wibble_add_data R H N a b)
  | _, _ => none

/-! ## The registration table (lines 94 to 103) -/

/-- The host's untyped function pointer `DL_FUNC`: the address of one of the
stubs after the cast `(DL_FUNC) &_wibble_f`, or the address of some other
function of the process, told apart by its linker symbol. -/
inductive DL_FUNC where
  | stub (s : Stub)
  | other (symbol : String)
  deriving DecidableEq, Repr

/-- One `R_CallMethodDef`: name, function pointer, declared argument count.
`NULL` is `none`. -/
structure R_CallMethodDef where
  name : Option String
  func : Option DL_FUNC
  numArgs : Int
  deriving DecidableEq, Repr

/-- The array `CallEntries`, its terminating entry included. -/
def CallEntries : List R_CallMethodDef :=
  [ ⟨some "_wibble_api_call", some (.stub ._wibble_api_call), 4⟩,
    ⟨some "_wibble_api_calls", some (.stub ._wibble_api_calls), 4⟩,
    ⟨some "_wibble_webbler", some (.stub ._wibble_webbler), 1⟩,
    ⟨some "_wibble_path_source", some (.stub ._wibble_path_source), 1⟩,
    ⟨some "_wibble_dots_example", some (.stub ._wibble_dots_example), 2⟩,
    ⟨some "_wibble_lst_tbl", some (.stub ._wibble_lst_tbl), 1⟩,
    ⟨some "_wibble_add_data", some (.stub ._wibble_add_data), 2⟩,
    ⟨none, none, 0⟩ ]

/-- The terminating entry `{NULL, NULL, 0}`. -/
def sentinel : R_CallMethodDef := ⟨none, none, 0⟩

/-- Reading a NULL-terminated table from its start: the entries before the
first entry whose name is `NULL`, or `none` when the array ends before such an
entry is met (the read would leave the array). -/
def entriesBeforeSentinel : List R_CallMethodDef → Option (List R_CallMethodDef)
  | [] => none
  | e :: rest =>
    match e.name with
    | none => some []
    | some _ => (entriesBeforeSentinel rest).map (fun es => e :: es)

/-- How a first-match scan of a NULL-terminated table ends. -/
inductive Scan where
  | found (entry : R_CallMethodDef)
  | absent
  | overrun
  deriving DecidableEq, Repr

/-- A first-match scan for a name: entries are compared in order, the scan
stops at the first entry with that name or at the first entry whose name is
`NULL`; `overrun` when the array ends first. -/
def scan (name : String) : List R_CallMethodDef → Scan
  | [] => .overrun
  | e :: rest =>
    match e.name with
    | none => .absent
    | some n => if n = name then .found e else scan name rest

/-! ## Registration (lines 105 to 108)

`DllInfo`, `R_registerRoutines`, `R_useDynamicSymbols` and the symbol lookup
belong to the host runtime, not to the repository.  They are modelled after
the host's dynamic-loading code: registration copies the entries that precede
the `NULL` name of each table it is given, a table argument that is `NULL` is
skipped, and a lookup tries the registered tables before the dynamic symbols
of the library. -/

/-- The host's record of one loaded library: what `dlsym` finds in it, whether
lookups may fall back on that, and the four tables of registered routines. -/
structure DllInfo where
  handle : String → Option DL_FUNC
  useDynamicSymbols : Bool
  CSymbols : List R_CallMethodDef
  CallSymbols : List R_CallMethodDef
  FortranSymbols : List R_CallMethodDef
  ExternalSymbols : List R_CallMethodDef
  forceSymbols : Bool

/-- One table argument of `R_registerRoutines`: `NULL` leaves the registered
table as it is, a table replaces it by the entries before its `NULL` name;
`none` when the table has no such end. -/
def registerTable (old : List R_CallMethodDef) :
    Option (List R_CallMethodDef) → Option (List R_CallMethodDef)
  | none => some old
  | some table => entriesBeforeSentinel table

/-- The host's `R_registerRoutines(info, croutines, callRoutines,
fortranRoutines, externalRoutines)`; `none` when a table is read past its
end. -/
def R_registerRoutines (info : DllInfo)
    (croutines callRoutines fortranRoutines externalRoutines : Option (List R_CallMethodDef)) :
    Option DllInfo := do
  let c ← registerTable info.CSymbols croutines
  let call ← registerTable info.CallSymbols callRoutines
  let fortran ← registerTable info.FortranSymbols fortranRoutines
  let ext ← registerTable info.ExternalSymbols externalRoutines
  pure { info with
    useDynamicSymbols := true, forceSymbols := false,
    CSymbols := c, CallSymbols := call, FortranSymbols := fortran, ExternalSymbols := ext }

/-- The host's `R_useDynamicSymbols(info, value)`. -/
def R_useDynamicSymbols (info : DllInfo) (value : Bool) : DllInfo :=
  { info with useDynamicSymbols := value }

/-- Lines 105 to 108: the load hook, as a function of the library record it is
handed. -/
def R_init_wibble (dll : DllInfo) : Option DllInfo := do
  let dll ← R_registerRoutines dll none (some CallEntries) none none
  pure (R_useDynamicSymbols dll false)

/-- The interface a symbol is looked up for. -/
inductive NativeSymbolType where
  | R_ANY_SYM
  | R_C_SYM
  | R_CALL_SYM
  | R_FORTRAN_SYM
  | R_EXTERNAL_SYM
  deriving DecidableEq, Repr

/-- The first registered entry of a table with the given name. -/
def lookupRegistered (table : List R_CallMethodDef) (name : String) : Option R_CallMethodDef :=
  table.find? (fun e => e.name = some name)

/-- The tables a lookup for an interface searches, in the host's order. -/
def searchedTables (info : DllInfo) : NativeSymbolType → List (List R_CallMethodDef)
  | .R_ANY_SYM => [info.CSymbols, info.CallSymbols, info.FortranSymbols, info.ExternalSymbols]
  | .R_C_SYM => [info.CSymbols]
  | .R_CALL_SYM => [info.CallSymbols]
  | .R_FORTRAN_SYM => [info.FortranSymbols]
  | .R_EXTERNAL_SYM => [info.ExternalSymbols]

/-- The host's lookup among the registered routines of a library: the pointer
of the first entry with the name, in the first searched table that has one. -/
def R_getDLLRegisteredSymbol (info : DllInfo) (name : String) (purpose : NativeSymbolType) :
    Option DL_FUNC :=
  match (searchedTables info purpose).findSome? (fun t => lookupRegistered t name) with
  | some sym => sym.func
  | none => none

/-- The host's resolution of a name in a library: the registered routines
first, then, only if the library allows it, its dynamic symbols. -/
def R_dlsym (info : DllInfo) (name : String) (purpose : NativeSymbolType) : Option DL_FUNC :=
  match R_getDLLRegisteredSymbol info name purpose with
  | some f => some f
  | none => if info.useDynamicSymbols then info.handle name else none

/-! ## The two ways a call of a stub can end -/

/-- What faithful marshalling comes to, once the arguments are converted: the
native computation `f` is run once, inside the RNG scope; what it returns is
wrapped and returned, what it throws is raised in the host. -/
def oneCall {σ ε α S : Type} (H : Runtime σ) (wrap : α → S) (f : Eff σ ε α) :
    σ → Outcome S ε × σ := fun w =>
  match f (H.enterRNGScope w) with
  | (Except.ok v, w1) => (Outcome.returned (wrap v), H.exitRNGScope w1)
  | (Except.error e, w1) => (Outcome.raised e, H.exitRNGScope w1)

/-- The outcome of a stub one of whose conversions threw `e`: the exception is
raised in the host, and only the RNG scope has touched the world. -/
def refused {σ ε S : Type} (H : Runtime σ) (e : ε) : σ → Outcome S ε × σ := fun w =>
  (Outcome.raised e, H.exitRNGScope (H.enterRNGScope w))

/-! ## Observing the native calls a stub makes -/

/-- One call of a native function, with the arguments it received in the order
of its parameters. -/
inductive NativeCall {ε : Type} (R : Rcpp ε) where
  | api_call (url : String) (query value : CharacterVector) (path : String)
  | api_calls (url query value path : CharacterVector)
  | webbler (url : String)
  | path_source (path : String)
  | dots_example (data dots : R.RcppList)
  | lst_tbl (lst : R.RcppList)
  | add_data (data : R.DataFrame) (lst : R.RcppList)

/-- The function a call went to. -/
def NativeCall.fn {ε : Type} {R : Rcpp ε} : NativeCall R → NativeFn
  | .api_call _ _ _ _ => .api_call
  | .api_calls _ _ _ _ => .api_calls
  | .webbler _ => .webbler
  | .path_source _ => .path_source
  | .dots_example _ _ => .dots_example
  | .lst_tbl _ => .lst_tbl
  | .add_data _ _ => .add_data

/-- Native functions that do nothing but note each call they receive at the
end of a log (the world is the log) and return a fixed value of their result
type. -/
def recorder {ε : Type} (R : Rcpp ε) (cv : CharacterVector) (s : String) (l : R.RcppList)
    (d : R.DataFrame) : Natives (List (NativeCall R)) ε R where
  api_call := fun url query value path log =>
    (Except.ok cv, log ++ [NativeCall.api_call url query value path])
  api_calls := fun url query value path log =>
    (Except.ok cv, log ++ [NativeCall.api_calls url query value path])
  webbler := fun url log => (Except.ok s, log ++ [NativeCall.webbler url])
  path_source := fun path log => (Except.ok l, log ++ [NativeCall.path_source path])
  dots_example := fun data dots log => (Except.ok d, log ++ [NativeCall.dots_example data dots])
  lst_tbl := fun lst log => (Except.ok d, log ++ [NativeCall.lst_tbl lst])
  add_data := fun data lst log => (Except.ok d, log ++ [NativeCall.add_data data lst])

/-- A host whose RNG scope leaves the world alone. -/
def quietRuntime (σ : Type) : Runtime σ where
  enterRNGScope := id
  exitRNGScope := id

/-- The log of native calls left by one call through a stub's address, from an
empty log. -/
def Stub.recorded {ε : Type} (R : Rcpp ε) (cv : CharacterVector) (s : String) (l : R.RcppList)
    (d : R.DataFrame) (f : Stub) (args : List R.SEXP) : Option (List (NativeCall R)) :=
  (f.call R (quietRuntime _) (recorder R cv s l d) args).map (fun run => (run []).2)

/-! ## The batch request executor -/

/-- One row of a batch: url, query, value, path. -/
abbrev Row : Type := String × String × String × String

/-- The rows of four parallel arrays, by position. -/
def batchRows (url query value path : CharacterVector) : List Row :=
  List.zip url (List.zip query (List.zip value path))

section Batch

variable {σ ε : Type}

/-- Modelled from the spec: how `api_calls` handles one row is not among the
sources.  The row goes to the Request Executor `api_call` (declared on line 9,
with `query` and `value` as character vectors: here the one-element vectors of
the row), and the row's result is one string; `text` is the step from the
vector `api_call` returns to that string, which the spec leaves open. -/
def requestRow (text : CharacterVector → String)
    (api_call : String → CharacterVector → CharacterVector → String → Eff σ ε CharacterVector)
    (row : Row) : Eff σ ε String := do
  let r ← api_call row.1 [row.2.1] [row.2.2.1] row.2.2.2
  pure (text r)

/-- Modelled from the spec: the loop of `api_calls` is not among the sources.
The Batch Request Executor applies the Request Executor to the rows, one
result per row, here from the first row to the last. -/
def requestRows (text : CharacterVector → String)
    (api_call : String → CharacterVector → CharacterVector → String → Eff σ ε CharacterVector) :
    List Row → Eff σ ε CharacterVector
  | [] => pure []
  | row :: rest => do
    let x ← requestRow text api_call row
    let xs ← requestRows text api_call rest
    pure (x :: xs)

/-- Modelled from the spec: the body of `api_calls` is not among the sources
(the file has its declaration, line 23, and its stub).  The spec's Batch
Request Executor applies the Request Executor across the parallel arrays and
returns one result per input row; that the arrays have equal length is an
invariant it must enforce or reject: arrays of unequal length are rejected by
throwing `reject`. -/
def api_calls (reject : ε) (text : CharacterVector → String)
    (api_call : String → CharacterVector → CharacterVector → String → Eff σ ε CharacterVector)
    (url query value path : CharacterVector) : Eff σ ε CharacterVector :=
  if url.length = query.length ∧ query.length = value.length ∧ value.length = path.length then
    requestRows text api_call (batchRows url query value path)
  else
    Eff.throw reject

/-- The world in which the request of row `i` is issued by `requestRows`: the
one left by the requests of the rows before it. -/
def worldBefore (text : CharacterVector → String)
    (api_call : String → CharacterVector → CharacterVector → String → Eff σ ε CharacterVector) :
    List Row → σ → Nat → σ
  | [], w, _ => w
  | _ :: _, w, 0 => w
  | row :: rest, w, i + 1 => worldBefore text api_call rest (requestRow text api_call row w).2 i

end Batch

/-! ## A small instance, to run the stubs on concrete arguments -/

namespace Example

/-- Host values: `NULL`, character vectors, named lists of character vectors
and data frames of character columns. -/
inductive Value where
  | null
  | character (xs : List String)
  | list (xs : List (String × List String))
  | data_frame (columns : List (String × List String))
  deriving DecidableEq, Repr

/-- Conversions in the manner of Rcpp: a value of another shape is refused
with an exception. -/
@[reducible]
def host : Rcpp String where
  SEXP := Value
  RcppList := List (String × List String)
  DataFrame := List (String × List String)
  as_string := fun x =>
    match x with
    | .character [s] => Except.ok s
    | _ => Except.error "Expecting a single string value"
  as_CharacterVector := fun x =>
    match x with
    | .character xs => Except.ok xs
    | _ => Except.error "Not compatible with STRSXP"
  as_List := fun x =>
    match x with
    | .list xs => Except.ok xs
    | .data_frame xs => Except.ok xs
    | _ => Except.error "Not compatible with VECSXP"
  as_DataFrame := fun x =>
    match x with
    | .data_frame xs => Except.ok xs
    | _ => Except.error "Not compatible with data.frame"
  wrap_string := fun s => .character [s]
  wrap_CharacterVector := fun xs => .character xs
  wrap_List := fun xs => .list xs
  wrap_DataFrame := fun xs => .data_frame xs

/-- The world is a journal of what happened; the RNG scope writes to it. -/
def runtime : Runtime (List String) where
  enterRNGScope := fun w => w ++ ["GetRNGstate"]
  exitRNGScope := fun w => w ++ ["PutRNGstate"]

/-- A request executor that answers with the url and the path, and notes the
request in the journal. -/
def api_call (url : String) (_query _value : CharacterVector) (path : String) :
    Eff (List String) String CharacterVector :=
  fun w => (Except.ok [url ++ path], w ++ ["request " ++ url])

/-- Stand-ins for the native functions, of the declared types, to have
something to call: `api_calls` is the batch executor above over `api_call`,
`webbler` throws when it is given no url, and the other four hand their
arguments back.  They say nothing about the package's own functions. -/
def natives : Natives (List String) String host where
  api_call := api_call
  api_calls := Wibble.api_calls "arrays of unequal length" String.join api_call
  webbler := fun url w =>
    if url = "" then (Except.error "no url to fetch", w)
    else (Except.ok ("<" ++ url ++ ">"), w ++ ["fetch " ++ url])
  path_source := fun path w => (Except.ok [("path", [path])], w)
  dots_example := fun data dots w => (Except.ok (data ++ dots), w)
  lst_tbl := fun lst w => (Except.ok lst, w)
  add_data := fun data lst w => (Except.ok (data ++ lst), w)

/-- A library record as the host has it right after loading: nothing
registered, dynamic symbols in use. -/
def loaded : DllInfo where
  handle := fun name =>
    match Stub.all.find? (fun s => s.symbol = name) with
    | some s => some (DL_FUNC.stub s)
    | none => if name = "R_init_wibble" then some (DL_FUNC.other name) else none
  useDynamicSymbols := true
  CSymbols := []
  CallSymbols := []
  FortranSymbols := []
  ExternalSymbols := []
  forceSymbols := false

end Example

/-! ## The stubs, one by one -/

section StubLemmas

variable {σ ε : Type} (R : Rcpp ε) (H : Runtime σ) (N : Natives σ ε R)

theorem guarded_call {α S : Type} (wrap : α → S) (f : Eff σ ε α) (w : σ) :
    BEGIN_RCPP (RNGScope H (Eff.andThen f (fun r => Eff.ret (wrap r)))) w = oneCall H wrap f w := by
  simp only [BEGIN_RCPP, RNGScope, Eff.andThen, Eff.ret, oneCall]
  rcases f (H.enterRNGScope w) with ⟨r, w1⟩
  cases r <;> rfl

theorem api_call_stub_ok (urlSEXP querySEXP valueSEXP pathSEXP : R.SEXP)
    (url : String) (query value : CharacterVector) (path : String) (w : σ)
    (h1 : R.as_string urlSEXP = Except.ok url)
    (h2 : R.as_CharacterVector querySEXP = Except.ok query)
    (h3 : R.as_CharacterVector valueSEXP = Except.ok value)
    (h4 : R.as_string pathSEXP = Except.ok path) :
    _wibble_api_call R H N urlSEXP querySEXP valueSEXP pathSEXP w =
      oneCall H R.wrap_CharacterVector (N.api_call url query value path) w := by
  rw [← guarded_call]
  simp only [_wibble_api_call, BEGIN_RCPP, RNGScope, bind, Eff.andThen, Eff.ofExcept,
    h1, h2, h3, h4, pure, Eff.ret]

theorem api_calls_stub_ok (urlSEXP querySEXP valueSEXP pathSEXP : R.SEXP)
    (url query value path : CharacterVector) (w : σ)
    (h1 : R.as_CharacterVector urlSEXP = Except.ok url)
    (h2 : R.as_CharacterVector querySEXP = Except.ok query)
    (h3 : R.as_CharacterVector valueSEXP = Except.ok value)
    (h4 : R.as_CharacterVector pathSEXP = Except.ok path) :
    _wibble_api_calls R H N urlSEXP querySEXP valueSEXP pathSEXP w =
      oneCall H R.wrap_CharacterVector (N.api_calls url query value path) w := by
  rw [← guarded_call]
  simp only [_wibble_api_calls, BEGIN_RCPP, RNGScope, bind, Eff.andThen, Eff.ofExcept,
    h1, h2, h3, h4, pure, Eff.ret]

theorem webbler_stub_ok (urlSEXP : R.SEXP)
    (url : String) (w : σ)
    (h1 : R.as_string urlSEXP = Except.ok url) :
    _wibble_webbler R H N urlSEXP w =
      oneCall H R.wrap_string (N.webbler url) w := by
  rw [← guarded_call]
  simp only [_wibble_webbler, BEGIN_RCPP, RNGScope, bind, Eff.andThen, Eff.ofExcept,
    h1, pure, Eff.ret]

theorem path_source_stub_ok (pathSEXP : R.SEXP)
    (path : String) (w : σ)
    (h1 : R.as_string pathSEXP = Except.ok path) :
    _wibble_path_source R H N pathSEXP w =
      oneCall H R.wrap_List (N.path_source path) w := by
  rw [← guarded_call]
  simp only [_wibble_path_source, BEGIN_RCPP, RNGScope, bind, Eff.andThen, Eff.ofExcept,
    h1, pure, Eff.ret]

theorem dots_example_stub_ok (dataSEXP dotsSEXP : R.SEXP)
    (data dots : R.RcppList) (w : σ)
    (h1 : R.as_List dataSEXP = Except.ok data)
    (h2 : R.as_List dotsSEXP = Except.ok dots) :
    _wibble_dots_example R H N dataSEXP dotsSEXP w =
      oneCall H R.wrap_DataFrame (N.dots_example data dots) w := by
  rw [← guarded_call]
  simp only [_wibble_dots_example, BEGIN_RCPP, RNGScope, bind, Eff.andThen, Eff.ofExcept,
    h1, h2, pure, Eff.ret]

theorem lst_tbl_stub_ok (lstSEXP : R.SEXP)
    (lst : R.RcppList) (w : σ)
    (h1 : R.as_List lstSEXP = Except.ok lst) :
    _wibble_lst_tbl R H N lstSEXP w =
      oneCall H R.wrap_DataFrame (N.lst_tbl lst) w := by
  rw [← guarded_call]
  simp only [_wibble_lst_tbl, BEGIN_RCPP, RNGScope, bind, Eff.andThen, Eff.ofExcept,
    h1, pure, Eff.ret]

theorem add_data_stub_ok (dataSEXP lstSEXP : R.SEXP)
    (data : R.DataFrame) (lst : R.RcppList) (w : σ)
    (h1 : R.as_DataFrame dataSEXP = Except.ok data)
    (h2 : R.as_List lstSEXP = Except.ok lst) :
    _wibble_add_data R H N dataSEXP lstSEXP w =
      oneCall H R.wrap_DataFrame (N.add_data data lst) w := by
  rw [← guarded_call]
  simp only [_wibble_add_data, BEGIN_RCPP, RNGScope, bind, Eff.andThen, Eff.ofExcept,
    h1, h2, pure, Eff.ret]

theorem api_call_stub_cases (urlSEXP querySEXP valueSEXP pathSEXP : R.SEXP) (w : σ) :
    (∃ url query value path,
      R.as_string urlSEXP = Except.ok url ∧
      R.as_CharacterVector querySEXP = Except.ok query ∧
      R.as_CharacterVector valueSEXP = Except.ok value ∧
      R.as_string pathSEXP = Except.ok path ∧
      _wibble_api_call R H N urlSEXP querySEXP valueSEXP pathSEXP w =
        oneCall H R.wrap_CharacterVector (N.api_call url query value path) w) ∨
    (∃ e,
      (R.as_string urlSEXP = Except.error e ∨
        R.as_CharacterVector querySEXP = Except.error e ∨
        R.as_CharacterVector valueSEXP = Except.error e ∨
        R.as_string pathSEXP = Except.error e) ∧
      _wibble_api_call R H N urlSEXP querySEXP valueSEXP pathSEXP w = refused H e w) := by
  rcases h1 : R.as_string urlSEXP with e | url
  · exact Or.inr ⟨e, Or.inl rfl, by
      simp only [_wibble_api_call, BEGIN_RCPP, RNGScope, bind, Eff.andThen, Eff.ofExcept,
        h1, refused]⟩
  rcases h2 : R.as_CharacterVector querySEXP with e | query
  · exact Or.inr ⟨e, Or.inr (Or.inl rfl), by
      simp only [_wibble_api_call, BEGIN_RCPP, RNGScope, bind, Eff.andThen, Eff.ofExcept,
        h1, h2, refused]⟩
  rcases h3 : R.as_CharacterVector valueSEXP with e | value
  · exact Or.inr ⟨e, Or.inr (Or.inr (Or.inl rfl)), by
      simp only [_wibble_api_call, BEGIN_RCPP, RNGScope, bind, Eff.andThen, Eff.ofExcept,
        h1, h2, h3, refused]⟩
  rcases h4 : R.as_string pathSEXP with e | path
  · exact Or.inr ⟨e, Or.inr (Or.inr (Or.inr rfl)), by
      simp only [_wibble_api_call, BEGIN_RCPP, RNGScope, bind, Eff.andThen, Eff.ofExcept,
        h1, h2, h3, h4, refused]⟩
  exact Or.inl ⟨url, query, value, path, rfl, rfl, rfl, rfl,
    api_call_stub_ok R H N urlSEXP querySEXP valueSEXP pathSEXP url query value path w h1 h2 h3 h4⟩

theorem api_calls_stub_cases (urlSEXP querySEXP valueSEXP pathSEXP : R.SEXP) (w : σ) :
    (∃ url query value path,
      R.as_CharacterVector urlSEXP = Except.ok url ∧
      R.as_CharacterVector querySEXP = Except.ok query ∧
      R.as_CharacterVector valueSEXP = Except.ok value ∧
      R.as_CharacterVector pathSEXP = Except.ok path ∧
      _wibble_api_calls R H N urlSEXP querySEXP valueSEXP pathSEXP w =
        oneCall H R.wrap_CharacterVector (N.api_calls url query value path) w) ∨
    (∃ e,
      (R.as_CharacterVector urlSEXP = Except.error e ∨
        R.as_CharacterVector querySEXP = Except.error e ∨
        R.as_CharacterVector valueSEXP = Except.error e ∨
        R.as_CharacterVector pathSEXP = Except.error e) ∧
      _wibble_api_calls R H N urlSEXP querySEXP valueSEXP pathSEXP w = refused H e w) := by
  rcases h1 : R.as_CharacterVector urlSEXP with e | url
  · exact Or.inr ⟨e, Or.inl rfl, by
      simp only [_wibble_api_calls, BEGIN_RCPP, RNGScope, bind, Eff.andThen, Eff.ofExcept,
        h1, refused]⟩
  rcases h2 : R.as_CharacterVector querySEXP with e | query
  · exact Or.inr ⟨e, Or.inr (Or.inl rfl), by
      simp only [_wibble_api_calls, BEGIN_RCPP, RNGScope, bind, Eff.andThen, Eff.ofExcept,
        h1, h2, refused]⟩
  rcases h3 : R.as_CharacterVector valueSEXP with e | value
  · exact Or.inr ⟨e, Or.inr (Or.inr (Or.inl rfl)), by
      simp only [_wibble_api_calls, BEGIN_RCPP, RNGScope, bind, Eff.andThen, Eff.ofExcept,
        h1, h2, h3, refused]⟩
  rcases h4 : R.as_CharacterVector pathSEXP with e | path
  · exact Or.inr ⟨e, Or.inr (Or.inr (Or.inr rfl)), by
      simp only [_wibble_api_calls, BEGIN_RCPP, RNGScope, bind, Eff.andThen, Eff.ofExcept,
        h1, h2, h3, h4, refused]⟩
  exact Or.inl ⟨url, query, value, path, rfl, rfl, rfl, rfl,
    api_calls_stub_ok R H N urlSEXP querySEXP valueSEXP pathSEXP url query value path w h1 h2 h3 h4⟩

theorem webbler_stub_cases (urlSEXP : R.SEXP) (w : σ) :
    (∃ url,
      R.as_string urlSEXP = Except.ok url ∧
      _wibble_webbler R H N urlSEXP w =
        oneCall H R.wrap_string (N.webbler url) w) ∨
    (∃ e,
      (R.as_string urlSEXP = Except.error e) ∧
      _wibble_webbler R H N urlSEXP w = refused H e w) := by
  rcases h1 : R.as_string urlSEXP with e | url
  · exact Or.inr ⟨e, rfl, by
      simp only [_wibble_webbler, BEGIN_RCPP, RNGScope, bind, Eff.andThen, Eff.ofExcept,
        h1, refused]⟩
  exact Or.inl ⟨url, rfl,
    webbler_stub_ok R H N urlSEXP url w h1⟩

theorem path_source_stub_cases (pathSEXP : R.SEXP) (w : σ) :
    (∃ path,
      R.as_string pathSEXP = Except.ok path ∧
      _wibble_path_source R H N pathSEXP w =
        oneCall H R.wrap_List (N.path_source path) w) ∨
    (∃ e,
      (R.as_string pathSEXP = Except.error e) ∧
      _wibble_path_source R H N pathSEXP w = refused H e w) := by
  rcases h1 : R.as_string pathSEXP with e | path
  · exact Or.inr ⟨e, rfl, by
      simp only [_wibble_path_source, BEGIN_RCPP, RNGScope, bind, Eff.andThen, Eff.ofExcept,
        h1, refused]⟩
  exact Or.inl ⟨path, rfl,
    path_source_stub_ok R H N pathSEXP path w h1⟩

theorem dots_example_stub_cases (dataSEXP dotsSEXP : R.SEXP) (w : σ) :
    (∃ data dots,
      R.as_List dataSEXP = Except.ok data ∧
      R.as_List dotsSEXP = Except.ok dots ∧
      _wibble_dots_example R H N dataSEXP dotsSEXP w =
        oneCall H R.wrap_DataFrame (N.dots_example data dots) w) ∨
    (∃ e,
      (R.as_List dataSEXP = Except.error e ∨
        R.as_List dotsSEXP = Except.error e) ∧
      _wibble_dots_example R H N dataSEXP dotsSEXP w = refused H e w) := by
  rcases h1 : R.as_List dataSEXP with e | data
  · exact Or.inr ⟨e, Or.inl rfl, by
      simp only [_wibble_dots_example, BEGIN_RCPP, RNGScope, bind, Eff.andThen, Eff.ofExcept,
        h1, refused]⟩
  rcases h2 : R.as_List dotsSEXP with e | dots
  · exact Or.inr ⟨e, Or.inr rfl, by
      simp only [_wibble_dots_example, BEGIN_RCPP, RNGScope, bind, Eff.andThen, Eff.ofExcept,
        h1, h2, refused]⟩
  exact Or.inl ⟨data, dots, rfl, rfl,
    dots_example_stub_ok R H N dataSEXP dotsSEXP data dots w h1 h2⟩

theorem lst_tbl_stub_cases (lstSEXP : R.SEXP) (w : σ) :
    (∃ lst,
      R.as_List lstSEXP = Except.ok lst ∧
      _wibble_lst_tbl R H N lstSEXP w =
        oneCall H R.wrap_DataFrame (N.lst_tbl lst) w) ∨
    (∃ e,
      (R.as_List lstSEXP = Except.error e) ∧
      _wibble_lst_tbl R H N lstSEXP w = refused H e w) := by
  rcases h1 : R.as_List lstSEXP with e | lst
  · exact Or.inr ⟨e, rfl, by
      simp only [_wibble_lst_tbl, BEGIN_RCPP, RNGScope, bind, Eff.andThen, Eff.ofExcept,
        h1, refused]⟩
  exact Or.inl ⟨lst, rfl,
    lst_tbl_stub_ok R H N lstSEXP lst w h1⟩

theorem add_data_stub_cases (dataSEXP lstSEXP : R.SEXP) (w : σ) :
    (∃ data lst,
      R.as_DataFrame dataSEXP = Except.ok data ∧
      R.as_List lstSEXP = Except.ok lst ∧
      _wibble_add_data R H N dataSEXP lstSEXP w =
        oneCall H R.wrap_DataFrame (N.add_data data lst) w) ∨
    (∃ e,
      (R.as_DataFrame dataSEXP = Except.error e ∨
        R.as_List lstSEXP = Except.error e) ∧
      _wibble_add_data R H N dataSEXP lstSEXP w = refused H e w) := by
  rcases h1 : R.as_DataFrame dataSEXP with e | data
  · exact Or.inr ⟨e, Or.inl rfl, by
      simp only [_wibble_add_data, BEGIN_RCPP, RNGScope, bind, Eff.andThen, Eff.ofExcept,
        h1, refused]⟩
  rcases h2 : R.as_List lstSEXP with e | lst
  · exact Or.inr ⟨e, Or.inr rfl, by
      simp only [_wibble_add_data, BEGIN_RCPP, RNGScope, bind, Eff.andThen, Eff.ofExcept,
        h1, h2, refused]⟩
  exact Or.inl ⟨data, lst, rfl, rfl,
    add_data_stub_ok R H N dataSEXP lstSEXP data lst w h1 h2⟩

end StubLemmas

theorem api_call_stub_recorded {ε : Type} (R : Rcpp ε) (cv : CharacterVector) (s : String)
    (l : R.RcppList) (d : R.DataFrame) (urlSEXP querySEXP valueSEXP pathSEXP : R.SEXP)
    (url : String) (query value : CharacterVector) (path : String)
    (h1 : R.as_string urlSEXP = Except.ok url)
    (h2 : R.as_CharacterVector querySEXP = Except.ok query)
    (h3 : R.as_CharacterVector valueSEXP = Except.ok value)
    (h4 : R.as_string pathSEXP = Except.ok path) :
    Stub.recorded R cv s l d Stub._wibble_api_call [urlSEXP, querySEXP, valueSEXP, pathSEXP] =
      some [NativeCall.api_call url query value path] := by
  simp only [Stub.recorded, Stub.call, Option.map_some']
  rw [api_call_stub_ok R (quietRuntime _) (recorder R cv s l d) urlSEXP querySEXP valueSEXP pathSEXP url query value path []
    h1 h2 h3 h4]
  rfl

theorem api_calls_stub_recorded {ε : Type} (R : Rcpp ε) (cv : CharacterVector) (s : String)
    (l : R.RcppList) (d : R.DataFrame) (urlSEXP querySEXP valueSEXP pathSEXP : R.SEXP)
    (url query value path : CharacterVector)
    (h1 : R.as_CharacterVector urlSEXP = Except.ok url)
    (h2 : R.as_CharacterVector querySEXP = Except.ok query)
    (h3 : R.as_CharacterVector valueSEXP = Except.ok value)
    (h4 : R.as_CharacterVector pathSEXP = Except.ok path) :
    Stub.recorded R cv s l d Stub._wibble_api_calls [urlSEXP, querySEXP, valueSEXP, pathSEXP] =
      some [NativeCall.api_calls url query value path] := by
  simp only [Stub.recorded, Stub.call, Option.map_some']
  rw [api_calls_stub_ok R (quietRuntime _) (recorder R cv s l d) urlSEXP querySEXP valueSEXP pathSEXP url query value path []
    h1 h2 h3 h4]
  rfl

theorem webbler_stub_recorded {ε : Type} (R : Rcpp ε) (cv : CharacterVector) (s : String)
    (l : R.RcppList) (d : R.DataFrame) (urlSEXP : R.SEXP)
    (url : String)
    (h1 : R.as_string urlSEXP = Except.ok url) :
    Stub.recorded R cv s l d Stub._wibble_webbler [urlSEXP] =
      some [NativeCall.webbler url] := by
  simp only [Stub.recorded, Stub.call, Option.map_some']
  rw [webbler_stub_ok R (quietRuntime _) (recorder R cv s l d) urlSEXP url []
    h1]
  rfl

theorem path_source_stub_recorded {ε : Type} (R : Rcpp ε) (cv : CharacterVector) (s : String)
    (l : R.RcppList) (d : R.DataFrame) (pathSEXP : R.SEXP)
    (path : String)
    (h1 : R.as_string pathSEXP = Except.ok path) :
    Stub.recorded R cv s l d Stub._wibble_path_source [pathSEXP] =
      some [NativeCall.path_source path] := by
  simp only [Stub.recorded, Stub.call, Option.map_some']
  rw [path_source_stub_ok R (quietRuntime _) (recorder R cv s l d) pathSEXP path []
    h1]
  rfl

theorem dots_example_stub_recorded {ε : Type} (R : Rcpp ε) (cv : CharacterVector) (s : String)
    (l : R.RcppList) (d : R.DataFrame) (dataSEXP dotsSEXP : R.SEXP)
    (data dots : R.RcppList)
    (h1 : R.as_List dataSEXP = Except.ok data)
    (h2 : R.as_List dotsSEXP = Except.ok dots) :
    Stub.recorded R cv s l d Stub._wibble_dots_example [dataSEXP, dotsSEXP] =
      some [NativeCall.dots_example data dots] := by
  simp only [Stub.recorded, Stub.call, Option.map_some']
  rw [dots_example_stub_ok R (quietRuntime _) (recorder R cv s l d) dataSEXP dotsSEXP data dots []
    h1 h2]
  rfl

theorem lst_tbl_stub_recorded {ε : Type} (R : Rcpp ε) (cv : CharacterVector) (s : String)
    (l : R.RcppList) (d : R.DataFrame) (lstSEXP : R.SEXP)
    (lst : R.RcppList)
    (h1 : R.as_List lstSEXP = Except.ok lst) :
    Stub.recorded R cv s l d Stub._wibble_lst_tbl [lstSEXP] =
      some [NativeCall.lst_tbl lst] := by
  simp only [Stub.recorded, Stub.call, Option.map_some']
  rw [lst_tbl_stub_ok R (quietRuntime _) (recorder R cv s l d) lstSEXP lst []
    h1]
  rfl

theorem add_data_stub_recorded {ε : Type} (R : Rcpp ε) (cv : CharacterVector) (s : String)
    (l : R.RcppList) (d : R.DataFrame) (dataSEXP lstSEXP : R.SEXP)
    (data : R.DataFrame) (lst : R.RcppList)
    (h1 : R.as_DataFrame dataSEXP = Except.ok data)
    (h2 : R.as_List lstSEXP = Except.ok lst) :
    Stub.recorded R cv s l d Stub._wibble_add_data [dataSEXP, lstSEXP] =
      some [NativeCall.add_data data lst] := by
  simp only [Stub.recorded, Stub.call, Option.map_some']
  rw [add_data_stub_ok R (quietRuntime _) (recorder R cv s l d) dataSEXP lstSEXP data lst []
    h1 h2]
  rfl

/-- Claim C2: every stub marshals its call faithfully.  For each of the seven
stubs and all host arguments whose conversions to the declared parameter
types succeed, the stub ends as one call of its native function on the
converted arguments, in the order of the parameters: it returns the wrapped
result (and raises what the function throws); and natives that record their
calls have received exactly one call, with exactly these arguments. -/
theorem stubs_marshal_faithfully {σ ε : Type} (R : Rcpp ε) (H : Runtime σ) (N : Natives σ ε R) :
    (∀ (urlSEXP querySEXP valueSEXP pathSEXP : R.SEXP) (url : String) (query value : CharacterVector) (path : String) (w : σ),
      R.as_string urlSEXP = Except.ok url →
      R.as_CharacterVector querySEXP = Except.ok query →
      R.as_CharacterVector valueSEXP = Except.ok value →
      R.as_string pathSEXP = Except.ok path →
      _wibble_api_call R H N urlSEXP querySEXP valueSEXP pathSEXP w =
          oneCall H R.wrap_CharacterVector (N.api_call url query value path) w ∧
        ∀ (cv : CharacterVector) (s : String) (l : R.RcppList) (d : R.DataFrame),
          Stub.recorded R cv s l d Stub._wibble_api_call [urlSEXP, querySEXP, valueSEXP, pathSEXP] =
            some [NativeCall.api_call url query value path]) ∧
    (∀ (urlSEXP querySEXP valueSEXP pathSEXP : R.SEXP) (url query value path : CharacterVector) (w : σ),
      R.as_CharacterVector urlSEXP = Except.ok url →
      R.as_CharacterVector querySEXP = Except.ok query →
      R.as_CharacterVector valueSEXP = Except.ok value →
      R.as_CharacterVector pathSEXP = Except.ok path →
      _wibble_api_calls R H N urlSEXP querySEXP valueSEXP pathSEXP w =
          oneCall H R.wrap_CharacterVector (N.api_calls url query value path) w ∧
        ∀ (cv : CharacterVector) (s : String) (l : R.RcppList) (d : R.DataFrame),
          Stub.recorded R cv s l d Stub._wibble_api_calls [urlSEXP, querySEXP, valueSEXP, pathSEXP] =
            some [NativeCall.api_calls url query value path]) ∧
    (∀ (urlSEXP : R.SEXP) (url : String) (w : σ),
      R.as_string urlSEXP = Except.ok url →
      _wibble_webbler R H N urlSEXP w =
          oneCall H R.wrap_string (N.webbler url) w ∧
        ∀ (cv : CharacterVector) (s : String) (l : R.RcppList) (d : R.DataFrame),
          Stub.recorded R cv s l d Stub._wibble_webbler [urlSEXP] =
            some [NativeCall.webbler url]) ∧
    (∀ (pathSEXP : R.SEXP) (path : String) (w : σ),
      R.as_string pathSEXP = Except.ok path →
      _wibble_path_source R H N pathSEXP w =
          oneCall H R.wrap_List (N.path_source path) w ∧
        ∀ (cv : CharacterVector) (s : String) (l : R.RcppList) (d : R.DataFrame),
          Stub.recorded R cv s l d Stub._wibble_path_source [pathSEXP] =
            some [NativeCall.path_source path]) ∧
    (∀ (dataSEXP dotsSEXP : R.SEXP) (data dots : R.RcppList) (w : σ),
      R.as_List dataSEXP = Except.ok data →
      R.as_List dotsSEXP = Except.ok dots →
      _wibble_dots_example R H N dataSEXP dotsSEXP w =
          oneCall H R.wrap_DataFrame (N.dots_example data dots) w ∧
        ∀ (cv : CharacterVector) (s : String) (l : R.RcppList) (d : R.DataFrame),
          Stub.recorded R cv s l d Stub._wibble_dots_example [dataSEXP, dotsSEXP] =
            some [NativeCall.dots_example data dots]) ∧
    (∀ (lstSEXP : R.SEXP) (lst : R.RcppList) (w : σ),
      R.as_List lstSEXP = Except.ok lst →
      _wibble_lst_tbl R H N lstSEXP w =
          oneCall H R.wrap_DataFrame (N.lst_tbl lst) w ∧
        ∀ (cv : CharacterVector) (s : String) (l : R.RcppList) (d : R.DataFrame),
          Stub.recorded R cv s l d Stub._wibble_lst_tbl [lstSEXP] =
            some [NativeCall.lst_tbl lst]) ∧
    (∀ (dataSEXP lstSEXP : R.SEXP) (data : R.DataFrame) (lst : R.RcppList) (w : σ),
      R.as_DataFrame dataSEXP = Except.ok data →
      R.as_List lstSEXP = Except.ok lst →
      _wibble_add_data R H N dataSEXP lstSEXP w =
          oneCall H R.wrap_DataFrame (N.add_data data lst) w ∧
        ∀ (cv : CharacterVector) (s : String) (l : R.RcppList) (d : R.DataFrame),
          Stub.recorded R cv s l d Stub._wibble_add_data [dataSEXP, lstSEXP] =
            some [NativeCall.add_data data lst]) := by
  refine ⟨?_, ?_, ?_, ?_, ?_, ?_, ?_⟩
  · exact fun urlSEXP querySEXP valueSEXP pathSEXP url query value path w h1 h2 h3 h4 =>
      ⟨api_call_stub_ok R H N urlSEXP querySEXP valueSEXP pathSEXP url query value path w h1 h2 h3 h4,
        fun cv s l d => api_call_stub_recorded R cv s l d urlSEXP querySEXP valueSEXP pathSEXP url query value path h1 h2 h3 h4⟩
  · exact fun urlSEXP querySEXP valueSEXP pathSEXP url query value path w h1 h2 h3 h4 =>
      ⟨api_calls_stub_ok R H N urlSEXP querySEXP valueSEXP pathSEXP url query value path w h1 h2 h3 h4,
        fun cv s l d => api_calls_stub_recorded R cv s l d urlSEXP querySEXP valueSEXP pathSEXP url query value path h1 h2 h3 h4⟩
  · exact fun urlSEXP url w h1 =>
      ⟨webbler_stub_ok R H N urlSEXP url w h1,
        fun cv s l d => webbler_stub_recorded R cv s l d urlSEXP url h1⟩
  · exact fun pathSEXP path w h1 =>
      ⟨path_source_stub_ok R H N pathSEXP path w h1,
        fun cv s l d => path_source_stub_recorded R cv s l d pathSEXP path h1⟩
  · exact fun dataSEXP dotsSEXP data dots w h1 h2 =>
      ⟨dots_example_stub_ok R H N dataSEXP dotsSEXP data dots w h1 h2,
        fun cv s l d => dots_example_stub_recorded R cv s l d dataSEXP dotsSEXP data dots h1 h2⟩
  · exact fun lstSEXP lst w h1 =>
      ⟨lst_tbl_stub_ok R H N lstSEXP lst w h1,
        fun cv s l d => lst_tbl_stub_recorded R cv s l d lstSEXP lst h1⟩
  · exact fun dataSEXP lstSEXP data lst w h1 h2 =>
      ⟨add_data_stub_ok R H N dataSEXP lstSEXP data lst w h1 h2,
        fun cv s l d => add_data_stub_recorded R cv s l d dataSEXP lstSEXP data lst h1 h2⟩

/-- Claim C2 on a concrete call of `_wibble_api_call`: the four host arguments
reach `api_call` converted and in order, the answer comes back wrapped, and
the journal shows one request inside the RNG scope. -/
theorem stubs_marshal_faithfully_witness :
    _wibble_api_call Example.host Example.runtime Example.natives
        (Example.Value.character ["u"]) (Example.Value.character ["q1", "q2"])
        (Example.Value.character ["v"]) (Example.Value.character ["/p"]) [] =
      (Outcome.returned (Example.Value.character ["u/p"]),
        ["GetRNGstate", "request u", "PutRNGstate"]) ∧
    Stub.recorded Example.host [] "" [] [] Stub._wibble_api_call
        [Example.Value.character ["u"], Example.Value.character ["q1", "q2"],
          Example.Value.character ["v"], Example.Value.character ["/p"]] =
      some [NativeCall.api_call "u" ["q1", "q2"] ["v"] "/p"] :=
  have h := (stubs_marshal_faithfully Example.host Example.runtime Example.natives).1
    (Example.Value.character ["u"]) (Example.Value.character ["q1", "q2"])
    (Example.Value.character ["v"]) (Example.Value.character ["/p"])
    "u" ["q1", "q2"] ["v"] "/p" [] rfl rfl rfl rfl
  ⟨h.1.trans (by decide), h.2 [] "" [] []⟩

/-- Claim C3, as amended: a call of a stub ends in one of two ways and no
other.  Either every conversion succeeds and the stub ends as the one call of
its native function does (wrapped result returned, exception raised in the
host), or a conversion throws and that exception is raised in the host, the
native function not having run. -/
theorem stubs_return_or_raise {σ ε : Type} (R : Rcpp ε) (H : Runtime σ) (N : Natives σ ε R) :
    (∀ (urlSEXP querySEXP valueSEXP pathSEXP : R.SEXP) (w : σ),
      (∃ url query value path,
        R.as_string urlSEXP = Except.ok url ∧
        R.as_CharacterVector querySEXP = Except.ok query ∧
        R.as_CharacterVector valueSEXP = Except.ok value ∧
        R.as_string pathSEXP = Except.ok path ∧
        _wibble_api_call R H N urlSEXP querySEXP valueSEXP pathSEXP w =
          oneCall H R.wrap_CharacterVector (N.api_call url query value path) w) ∨
      (∃ e,
        (R.as_string urlSEXP = Except.error e ∨
          R.as_CharacterVector querySEXP = Except.error e ∨
          R.as_CharacterVector valueSEXP = Except.error e ∨
          R.as_string pathSEXP = Except.error e) ∧
        _wibble_api_call R H N urlSEXP querySEXP valueSEXP pathSEXP w = refused H e w)) ∧
    (∀ (urlSEXP querySEXP valueSEXP pathSEXP : R.SEXP) (w : σ),
      (∃ url query value path,
        R.as_CharacterVector urlSEXP = Except.ok url ∧
        R.as_CharacterVector querySEXP = Except.ok query ∧
        R.as_CharacterVector valueSEXP = Except.ok value ∧
        R.as_CharacterVector pathSEXP = Except.ok path ∧
        _wibble_api_calls R H N urlSEXP querySEXP valueSEXP pathSEXP w =
          oneCall H R.wrap_CharacterVector (N.api_calls url query value path) w) ∨
      (∃ e,
        (R.as_CharacterVector urlSEXP = Except.error e ∨
          R.as_CharacterVector querySEXP = Except.error e ∨
          R.as_CharacterVector valueSEXP = Except.error e ∨
          R.as_CharacterVector pathSEXP = Except.error e) ∧
        _wibble_api_calls R H N urlSEXP querySEXP valueSEXP pathSEXP w = refused H e w)) ∧
    (∀ (urlSEXP : R.SEXP) (w : σ),
      (∃ url,
        R.as_string urlSEXP = Except.ok url ∧
        _wibble_webbler R H N urlSEXP w =
          oneCall H R.wrap_string (N.webbler url) w) ∨
      (∃ e,
        (R.as_string urlSEXP = Except.error e) ∧
        _wibble_webbler R H N urlSEXP w = refused H e w)) ∧
    (∀ (pathSEXP : R.SEXP) (w : σ),
      (∃ path,
        R.as_string pathSEXP = Except.ok path ∧
        _wibble_path_source R H N pathSEXP w =
          oneCall H R.wrap_List (N.path_source path) w) ∨
      (∃ e,
        (R.as_string pathSEXP = Except.error e) ∧
        _wibble_path_source R H N pathSEXP w = refused H e w)) ∧
    (∀ (dataSEXP dotsSEXP : R.SEXP) (w : σ),
      (∃ data dots,
        R.as_List dataSEXP = Except.ok data ∧
        R.as_List dotsSEXP = Except.ok dots ∧
        _wibble_dots_example R H N dataSEXP dotsSEXP w =
          oneCall H R.wrap_DataFrame (N.dots_example data dots) w) ∨
      (∃ e,
        (R.as_List dataSEXP = Except.error e ∨
          R.as_List dotsSEXP = Except.error e) ∧
        _wibble_dots_example R H N dataSEXP dotsSEXP w = refused H e w)) ∧
    (∀ (lstSEXP : R.SEXP) (w : σ),
      (∃ lst,
        R.as_List lstSEXP = Except.ok lst ∧
        _wibble_lst_tbl R H N lstSEXP w =
          oneCall H R.wrap_DataFrame (N.lst_tbl lst) w) ∨
      (∃ e,
        (R.as_List lstSEXP = Except.error e) ∧
        _wibble_lst_tbl R H N lstSEXP w = refused H e w)) ∧
    (∀ (dataSEXP lstSEXP : R.SEXP) (w : σ),
      (∃ data lst,
        R.as_DataFrame dataSEXP = Except.ok data ∧
        R.as_List lstSEXP = Except.ok lst ∧
        _wibble_add_data R H N dataSEXP lstSEXP w =
          oneCall H R.wrap_DataFrame (N.add_data data lst) w) ∨
      (∃ e,
        (R.as_DataFrame dataSEXP = Except.error e ∨
          R.as_List lstSEXP = Except.error e) ∧
        _wibble_add_data R H N dataSEXP lstSEXP w = refused H e w)) :=
  ⟨api_call_stub_cases R H N,
    api_calls_stub_cases R H N,
    webbler_stub_cases R H N,
    path_source_stub_cases R H N,
    dots_example_stub_cases R H N,
    lst_tbl_stub_cases R H N,
    add_data_stub_cases R H N⟩

/-- Claim C3 as stated fails: called with `NULL` for the url, `_wibble_webbler`
returns no value; the exception of the conversion is raised in the host.  And
called with a url on which `webbler` throws, it raises that exception. -/
theorem stub_raises_instead_of_returning :
    _wibble_webbler Example.host Example.runtime Example.natives Example.Value.null [] =
      (Outcome.raised "Expecting a single string value", ["GetRNGstate", "PutRNGstate"]) ∧
    (¬ ∃ v, (_wibble_webbler Example.host Example.runtime Example.natives
      Example.Value.null []).1 = Outcome.returned v) ∧
    _wibble_webbler Example.host Example.runtime Example.natives
        (Example.Value.character [""]) [] =
      (Outcome.raised "no url to fetch", ["GetRNGstate", "PutRNGstate"]) := by
  refine ⟨by decide, ?_, by decide⟩
  rintro ⟨v, hv⟩
  have h : (_wibble_webbler Example.host Example.runtime Example.natives
      Example.Value.null []).1 = Outcome.raised "Expecting a single string value" := by decide
  rw [h] at hv
  cases hv

/-! ## The registration table -/

theorem Stub.call_isSome_iff {σ ε : Type} (R : Rcpp ε) (H : Runtime σ) (N : Natives σ ε R)
    (s : Stub) (args : List R.SEXP) :
    (s.call R H N args).isSome ↔ args.length = s.params.length := by
  cases s <;> rcases args with _ | ⟨a, _ | ⟨b, _ | ⟨c, _ | ⟨d, _ | ⟨x, rest⟩⟩⟩⟩⟩ <;>
    simp [Stub.call, Stub.params]

theorem Stub.recorded_goes_to_callee {ε : Type} (R : Rcpp ε) (cv : CharacterVector)
    (str : String) (l : R.RcppList) (d : R.DataFrame) (s : Stub) (args : List R.SEXP)
    (log : List (NativeCall R)) (h : s.recorded R cv str l d args = some log) :
    log = [] ∨ ∃ c, log = [c] ∧ c.fn = s.callee := by
  cases s
  · rcases args with _ | ⟨a1, _ | ⟨a2, _ | ⟨a3, _ | ⟨a4, _ | ⟨x, rest⟩⟩⟩⟩⟩ <;>
      simp only [Stub.recorded, Stub.call, Option.map_none', Option.map_some', reduceCtorEq,
        Option.some.injEq] at h
    rcases api_call_stub_cases R (quietRuntime _) (recorder R cv str l d) a1 a2 a3 a4 [] with
      ⟨url, query, value, path, -, -, -, -, h1⟩ | ⟨e, -, h1⟩
    · exact Or.inr ⟨NativeCall.api_call url query value path, by rw [h1] at h; exact h.symm, rfl⟩
    · exact Or.inl (by rw [h1] at h; exact h.symm)
  · rcases args with _ | ⟨a1, _ | ⟨a2, _ | ⟨a3, _ | ⟨a4, _ | ⟨x, rest⟩⟩⟩⟩⟩ <;>
      simp only [Stub.recorded, Stub.call, Option.map_none', Option.map_some', reduceCtorEq,
        Option.some.injEq] at h
    rcases api_calls_stub_cases R (quietRuntime _) (recorder R cv str l d) a1 a2 a3 a4 [] with
      ⟨url, query, value, path, -, -, -, -, h1⟩ | ⟨e, -, h1⟩
    · exact Or.inr ⟨NativeCall.api_calls url query value path, by rw [h1] at h; exact h.symm, rfl⟩
    · exact Or.inl (by rw [h1] at h; exact h.symm)
  · rcases args with _ | ⟨a1, _ | ⟨x, rest⟩⟩ <;>
      simp only [Stub.recorded, Stub.call, Option.map_none', Option.map_some', reduceCtorEq,
        Option.some.injEq] at h
    rcases webbler_stub_cases R (quietRuntime _) (recorder R cv str l d) a1 [] with
      ⟨url, -, h1⟩ | ⟨e, -, h1⟩
    · exact Or.inr ⟨NativeCall.webbler url, by rw [h1] at h; exact h.symm, rfl⟩
    · exact Or.inl (by rw [h1] at h; exact h.symm)
  · rcases args with _ | ⟨a1, _ | ⟨x, rest⟩⟩ <;>
      simp only [Stub.recorded, Stub.call, Option.map_none', Option.map_some', reduceCtorEq,
        Option.some.injEq] at h
    rcases path_source_stub_cases R (quietRuntime _) (recorder R cv str l d) a1 [] with
      ⟨path, -, h1⟩ | ⟨e, -, h1⟩
    · exact Or.inr ⟨NativeCall.path_source path, by rw [h1] at h; exact h.symm, rfl⟩
    · exact Or.inl (by rw [h1] at h; exact h.symm)
  · rcases args with _ | ⟨a1, _ | ⟨a2, _ | ⟨x, rest⟩⟩⟩ <;>
      simp only [Stub.recorded, Stub.call, Option.map_none', Option.map_some', reduceCtorEq,
        Option.some.injEq] at h
    rcases dots_example_stub_cases R (quietRuntime _) (recorder R cv str l d) a1 a2 [] with
      ⟨data, dots, -, -, h1⟩ | ⟨e, -, h1⟩
    · exact Or.inr ⟨NativeCall.dots_example data dots, by rw [h1] at h; exact h.symm, rfl⟩
    · exact Or.inl (by rw [h1] at h; exact h.symm)
  · rcases args with _ | ⟨a1, _ | ⟨x, rest⟩⟩ <;>
      simp only [Stub.recorded, Stub.call, Option.map_none', Option.map_some', reduceCtorEq,
        Option.some.injEq] at h
    rcases lst_tbl_stub_cases R (quietRuntime _) (recorder R cv str l d) a1 [] with
      ⟨lst, -, h1⟩ | ⟨e, -, h1⟩
    · exact Or.inr ⟨NativeCall.lst_tbl lst, by rw [h1] at h; exact h.symm, rfl⟩
    · exact Or.inl (by rw [h1] at h; exact h.symm)
  · rcases args with _ | ⟨a1, _ | ⟨a2, _ | ⟨x, rest⟩⟩⟩ <;>
      simp only [Stub.recorded, Stub.call, Option.map_none', Option.map_some', reduceCtorEq,
        Option.some.injEq] at h
    rcases add_data_stub_cases R (quietRuntime _) (recorder R cv str l d) a1 a2 [] with
      ⟨data, lst, -, -, h1⟩ | ⟨e, -, h1⟩
    · exact Or.inr ⟨NativeCall.add_data data lst, by rw [h1] at h; exact h.symm, rfl⟩
    · exact Or.inl (by rw [h1] at h; exact h.symm)

/-- Claim C1: before its terminating entry the table holds exactly seven
entries, one for each declared native function `f`, in the order of the file;
the entry named `_wibble_f` carries the address of the stub `_wibble_f`, no
other entry has that name or that address, and that stub is the one whose
body calls `f`: whatever it is called with, natives that record their calls
have seen no call, or one call, which went to `f`, and on some arguments
they have seen that call. -/
theorem CallEntries_binds_each_name_to_its_stub :
    ∃ entries : List R_CallMethodDef,
      CallEntries = entries ++ [sentinel] ∧
      entriesBeforeSentinel CallEntries = some entries ∧
      entries.length = 7 ∧
      entries.map (fun e => e.name) = NativeFn.all.map (fun f => some ("_wibble_" ++ f.name)) ∧
      (∀ f : NativeFn, ∃ s : Stub,
        s.symbol = "_wibble_" ++ f.name ∧ s.callee = f ∧
        (∃ e ∈ entries, e.name = some s.symbol ∧ e.func = some (DL_FUNC.stub s)) ∧
        (∀ e ∈ entries, e.name = some s.symbol ↔ e.func = some (DL_FUNC.stub s)) ∧
        (∀ (ε : Type) (R : Rcpp ε) (cv : CharacterVector) (str : String) (l : R.RcppList)
          (d : R.DataFrame) (args : List R.SEXP) (log : List (NativeCall R)),
          s.recorded R cv str l d args = some log → log = [] ∨ ∃ c, log = [c] ∧ c.fn = f) ∧
        (∃ (args : List Example.host.SEXP) (c : NativeCall Example.host),
          s.recorded Example.host [] "" [] [] args = some [c] ∧ c.fn = f)) := by
  refine ⟨CallEntries.take 7, by decide, by decide, by decide, by decide, ?_⟩
  intro f
  cases f
  · exact ⟨Stub._wibble_api_call, by decide, rfl, by decide, by decide,
      fun ε R cv str l d args log h => Stub.recorded_goes_to_callee R cv str l d _ args log h,
      [.character ["u"], .character ["a", "b"], .character ["a", "b"], .character ["u"]],
      NativeCall.api_call "u" ["a", "b"] ["a", "b"] "u",
      api_call_stub_recorded Example.host [] "" [] [] _ _ _ _ _ _ _ _ rfl rfl rfl rfl, rfl⟩
  · exact ⟨Stub._wibble_api_calls, by decide, rfl, by decide, by decide,
      fun ε R cv str l d args log h => Stub.recorded_goes_to_callee R cv str l d _ args log h,
      [.character ["a", "b"], .character ["a", "b"], .character ["a", "b"], .character ["a", "b"]],
      NativeCall.api_calls ["a", "b"] ["a", "b"] ["a", "b"] ["a", "b"],
      api_calls_stub_recorded Example.host [] "" [] [] _ _ _ _ _ _ _ _ rfl rfl rfl rfl, rfl⟩
  · exact ⟨Stub._wibble_webbler, by decide, rfl, by decide, by decide,
      fun ε R cv str l d args log h => Stub.recorded_goes_to_callee R cv str l d _ args log h,
      [.character ["u"]],
      NativeCall.webbler "u",
      webbler_stub_recorded Example.host [] "" [] [] _ _ rfl, rfl⟩
  · exact ⟨Stub._wibble_path_source, by decide, rfl, by decide, by decide,
      fun ε R cv str l d args log h => Stub.recorded_goes_to_callee R cv str l d _ args log h,
      [.character ["u"]],
      NativeCall.path_source "u",
      path_source_stub_recorded Example.host [] "" [] [] _ _ rfl, rfl⟩
  · exact ⟨Stub._wibble_dots_example, by decide, rfl, by decide, by decide,
      fun ε R cv str l d args log h => Stub.recorded_goes_to_callee R cv str l d _ args log h,
      [.list [("k", ["x"])], .list [("k", ["x"])]],
      NativeCall.dots_example [("k", ["x"])] [("k", ["x"])],
      dots_example_stub_recorded Example.host [] "" [] [] _ _ _ _ rfl rfl, rfl⟩
  · exact ⟨Stub._wibble_lst_tbl, by decide, rfl, by decide, by decide,
      fun ε R cv str l d args log h => Stub.recorded_goes_to_callee R cv str l d _ args log h,
      [.list [("k", ["x"])]],
      NativeCall.lst_tbl [("k", ["x"])],
      lst_tbl_stub_recorded Example.host [] "" [] [] _ _ rfl, rfl⟩
  · exact ⟨Stub._wibble_add_data, by decide, rfl, by decide, by decide,
      fun ε R cv str l d args log h => Stub.recorded_goes_to_callee R cv str l d _ args log h,
      [.data_frame [("k", ["x"])], .list [("k", ["x"])]],
      NativeCall.add_data [("k", ["x"])] [("k", ["x"])],
      add_data_stub_recorded Example.host [] "" [] [] _ _ _ _ rfl rfl, rfl⟩

/-- Claim C7: arity consistency of the table.  For every entry of
`CallEntries` other than the terminating one, the declared argument count is
the number of `SEXP` parameters of the stub the entry points to (written, and
as the stub can be called: it is the one length of an argument list the stub
accepts), which is the number of parameters of the native function that stub
calls; the seven counts are 4, 4, 1, 1, 2, 1 and 2. -/
theorem CallEntries_arity_consistent (e : R_CallMethodDef) (he : e ∈ CallEntries)
    (hn : e.name ≠ none) :
    (∃ s : Stub, e.func = some (DL_FUNC.stub s) ∧
      e.numArgs = s.params.length ∧
      s.params.length = s.callee.params.length ∧
      ∀ (σ ε : Type) (R : Rcpp ε) (H : Runtime σ) (N : Natives σ ε R) (args : List R.SEXP),
        (s.call R H N args).isSome ↔ (args.length : Int) = e.numArgs) ∧
    NativeFn.all.map (fun f => (f.name, f.params.length)) =
      [("api_call", 4), ("api_calls", 4), ("webbler", 1), ("path_source", 1),
        ("dots_example", 2), ("lst_tbl", 1), ("add_data", 2)] := by
  refine ⟨?_, by decide⟩
  simp only [CallEntries, List.mem_cons, List.mem_singleton, List.not_mem_nil, or_false] at he
  rcases he with rfl | rfl | rfl | rfl | rfl | rfl | rfl | rfl
  · exact ⟨Stub._wibble_api_call, rfl, rfl, rfl, fun σ ε R H N args => by
      rw [Stub.call_isSome_iff]; exact Nat.cast_inj.symm⟩
  · exact ⟨Stub._wibble_api_calls, rfl, rfl, rfl, fun σ ε R H N args => by
      rw [Stub.call_isSome_iff]; exact Nat.cast_inj.symm⟩
  · exact ⟨Stub._wibble_webbler, rfl, rfl, rfl, fun σ ε R H N args => by
      rw [Stub.call_isSome_iff]; exact Nat.cast_inj.symm⟩
  · exact ⟨Stub._wibble_path_source, rfl, rfl, rfl, fun σ ε R H N args => by
      rw [Stub.call_isSome_iff]; exact Nat.cast_inj.symm⟩
  · exact ⟨Stub._wibble_dots_example, rfl, rfl, rfl, fun σ ε R H N args => by
      rw [Stub.call_isSome_iff]; exact Nat.cast_inj.symm⟩
  · exact ⟨Stub._wibble_lst_tbl, rfl, rfl, rfl, fun σ ε R H N args => by
      rw [Stub.call_isSome_iff]; exact Nat.cast_inj.symm⟩
  · exact ⟨Stub._wibble_add_data, rfl, rfl, rfl, fun σ ε R H N args => by
      rw [Stub.call_isSome_iff]; exact Nat.cast_inj.symm⟩
  · exact absurd rfl hn

/-- Claim C7 at the entry of `_wibble_dots_example`, which declares two
arguments. -/
theorem CallEntries_arity_consistent_witness :
    (∃ s : Stub,
      (⟨some "_wibble_dots_example", some (DL_FUNC.stub Stub._wibble_dots_example), 2⟩ :
        R_CallMethodDef).func = some (DL_FUNC.stub s) ∧
      (2 : Int) = s.params.length ∧
      s.params.length = s.callee.params.length ∧
      ∀ (σ ε : Type) (R : Rcpp ε) (H : Runtime σ) (N : Natives σ ε R) (args : List R.SEXP),
        (s.call R H N args).isSome ↔ (args.length : Int) = 2) ∧
    NativeFn.all.map (fun f => (f.name, f.params.length)) =
      [("api_call", 4), ("api_calls", 4), ("webbler", 1), ("path_source", 1),
        ("dots_example", 2), ("lst_tbl", 1), ("add_data", 2)] :=
  CallEntries_arity_consistent
    ⟨some "_wibble_dots_example", some (DL_FUNC.stub Stub._wibble_dots_example), 2⟩
    (by decide) (by decide)

/-- Claim C9: lookup in the table is unambiguous and ends inside it.  The
table is seven entries with a name and a pointer, followed by the terminating
entry, which is the last one; the seven names are pairwise distinct, and so
are the seven pointers; a first-match scan for any name never reads past the
array; for the name of an entry it returns that entry, the only one with the
name; for any other name it stops at the terminating entry. -/
theorem CallEntries_lookup_unambiguous :
    ∃ entries : List R_CallMethodDef,
      CallEntries = entries ++ [sentinel] ∧
      CallEntries.getLast? = some sentinel ∧
      (∀ e ∈ entries, e.name ≠ none ∧ e.func ≠ none) ∧
      (entries.map (fun e => e.name)).Nodup ∧
      (entries.map (fun e => e.func)).Nodup ∧
      (∀ name : String, scan name CallEntries ≠ Scan.overrun) ∧
      (∀ e ∈ entries, ∀ name : String, e.name = some name →
        scan name CallEntries = Scan.found e) ∧
      (∀ (name : String) (e : R_CallMethodDef), scan name CallEntries = Scan.found e →
        e ∈ entries ∧ e.name = some name) ∧
      (∀ name : String, (∀ e ∈ entries, e.name ≠ some name) →
        scan name CallEntries = Scan.absent) ∧
      (∀ e1 ∈ entries, ∀ e2 ∈ entries, e1.name = e2.name → e1 = e2) := by
  refine ⟨CallEntries.take 7, by decide, by decide, by decide, by decide, by decide, ?_, ?_, ?_,
    ?_, by decide⟩
  · intro name
    simp only [scan, CallEntries]
    split_ifs <;> simp
  · intro e he name hname
    simp only [CallEntries, List.take, List.mem_cons, List.mem_singleton, List.not_mem_nil,
      or_false] at he
    rcases he with rfl | rfl | rfl | rfl | rfl | rfl | rfl <;>
      · simp only [Option.some.injEq] at hname
        subst hname
        decide
  · intro name e h
    simp only [scan, CallEntries] at h
    split_ifs at h with h1 h2 h3 h4 h5 h6 h7 <;>
      simp only [Scan.found.injEq, reduceCtorEq] at h <;>
      subst h <;> subst_vars <;> exact ⟨by decide, rfl⟩
  · intro name h
    simp only [scan, CallEntries]
    have h1 := h ⟨some "_wibble_api_call", some (DL_FUNC.stub Stub._wibble_api_call), 4⟩ (by decide)
    have h2 := h ⟨some "_wibble_api_calls", some (DL_FUNC.stub Stub._wibble_api_calls), 4⟩
      (by decide)
    have h3 := h ⟨some "_wibble_webbler", some (DL_FUNC.stub Stub._wibble_webbler), 1⟩ (by decide)
    have h4 := h ⟨some "_wibble_path_source", some (DL_FUNC.stub Stub._wibble_path_source), 1⟩
      (by decide)
    have h5 := h ⟨some "_wibble_dots_example", some (DL_FUNC.stub Stub._wibble_dots_example), 2⟩
      (by decide)
    have h6 := h ⟨some "_wibble_lst_tbl", some (DL_FUNC.stub Stub._wibble_lst_tbl), 1⟩ (by decide)
    have h7 := h ⟨some "_wibble_add_data", some (DL_FUNC.stub Stub._wibble_add_data), 2⟩ (by decide)
    simp only [ne_eq, Option.some.injEq] at h1 h2 h3 h4 h5 h6 h7
    simp only [h1, h2, h3, h4, h5, h6, h7, if_false]

/-! ## Registration -/

theorem R_init_wibble_eq (dll : DllInfo) :
    R_init_wibble dll = some { dll with
      useDynamicSymbols := false, forceSymbols := false, CallSymbols := CallEntries.take 7 } := by
  rfl

theorem lookupRegistered_CallEntries (name : String) (e : R_CallMethodDef) :
    lookupRegistered (CallEntries.take 7) name = some e ↔
      e ∈ CallEntries.take 7 ∧ e.name = some name := by
  constructor
  · intro h
    have h1 := List.mem_of_find?_eq_some h
    have h2 := List.find?_some h
    exact ⟨h1, by simpa using h2⟩
  · rintro ⟨he, hname⟩
    simp only [CallEntries, List.take, List.mem_cons, List.mem_singleton, List.not_mem_nil,
      or_false] at he
    rcases he with rfl | rfl | rfl | rfl | rfl | rfl | rfl <;>
      · simp only [Option.some.injEq] at hname
        subst hname
        decide

theorem findSome_one (g : List R_CallMethodDef → Option R_CallMethodDef)
    (t : List R_CallMethodDef) : [t].findSome? g = g t := by
  simp only [List.findSome?]
  cases g t <;> rfl

theorem findSome_second (g : List R_CallMethodDef → Option R_CallMethodDef) (hg : g [] = none)
    (t : List R_CallMethodDef) : [[], t, [], []].findSome? g = g t := by
  simp only [List.findSome?, hg]
  cases g t <;> rfl

theorem registered_in_table_iff (tables : List (List R_CallMethodDef)) (name : String)
    (f : DL_FUNC)
    (h : tables.findSome? (fun t => lookupRegistered t name) =
      lookupRegistered (CallEntries.take 7) name) :
    (match tables.findSome? (fun t => lookupRegistered t name) with
      | some sym => sym.func
      | none => none) = some f ↔
      ∃ e ∈ CallEntries.take 7, e.name = some name ∧ e.func = some f := by
  rw [h]
  rcases hl : lookupRegistered (CallEntries.take 7) name with _ | e0
  · constructor
    · intro h0
      exact absurd h0 (by simp)
    · rintro ⟨e, he, hname, -⟩
      have := (lookupRegistered_CallEntries name e).mpr ⟨he, hname⟩
      rw [hl] at this
      exact absurd this (by simp)
  · have h0 := (lookupRegistered_CallEntries name e0).mp hl
    constructor
    · intro hf
      exact ⟨e0, h0.1, h0.2, hf⟩
    · rintro ⟨e, he, hname, hf⟩
      have := (lookupRegistered_CallEntries name e).mpr ⟨he, hname⟩
      rw [hl] at this
      cases this
      exact hf

theorem R_dlsym_static (d : DllInfo) (h : d.useDynamicSymbols = false) (name : String)
    (purpose : NativeSymbolType) :
    R_dlsym d name purpose = R_getDLLRegisteredSymbol d name purpose := by
  unfold R_dlsym
  cases R_getDLLRegisteredSymbol d name purpose <;> simp [h]

/-- Claim C8: the load hook exposes exactly the table.  `R_init_wibble` hands
the host `NULL` for the `.C`, `.Fortran` and `.External` tables and
`CallEntries` for the `.Call` table, and succeeds; afterwards the `.Call`
routines of the library are the seven entries of `CallEntries` and nothing
else, the other three tables are as they were (so empty, when they were
empty), and dynamic lookup is off.  A `.Call` lookup then resolves a name if
and only if it is the name of one of the seven entries, to that entry's
pointer, whatever the library's dynamic symbols are; and in a library with no
`.C`, `.Fortran` or `.External` routine, as one just loaded, the same holds of
a lookup for any interface, and lookups for these three resolve nothing. -/
theorem R_init_wibble_exposes_the_table (dll : DllInfo) :
    ∃ (entries : List R_CallMethodDef) (dll1 : DllInfo),
      CallEntries = entries ++ [sentinel] ∧
      entries.length = 7 ∧
      R_init_wibble dll =
        (R_registerRoutines dll none (some CallEntries) none none).map
          (fun d => R_useDynamicSymbols d false) ∧
      R_init_wibble dll = some dll1 ∧
      dll1.CallSymbols = entries ∧
      dll1.CSymbols = dll.CSymbols ∧
      dll1.FortranSymbols = dll.FortranSymbols ∧
      dll1.ExternalSymbols = dll.ExternalSymbols ∧
      dll1.useDynamicSymbols = false ∧
      dll1.handle = dll.handle ∧
      (∀ (name : String) (f : DL_FUNC),
        R_dlsym dll1 name NativeSymbolType.R_CALL_SYM = some f ↔
          ∃ e ∈ entries, e.name = some name ∧ e.func = some f) ∧
      (dll.CSymbols = [] → dll.FortranSymbols = [] → dll.ExternalSymbols = [] →
        (∀ (name : String) (f : DL_FUNC),
          R_dlsym dll1 name NativeSymbolType.R_ANY_SYM = some f ↔
            ∃ e ∈ entries, e.name = some name ∧ e.func = some f) ∧
        (∀ name : String,
          R_dlsym dll1 name NativeSymbolType.R_C_SYM = none ∧
          R_dlsym dll1 name NativeSymbolType.R_FORTRAN_SYM = none ∧
          R_dlsym dll1 name NativeSymbolType.R_EXTERNAL_SYM = none)) := by
  refine ⟨CallEntries.take 7, _, by decide, by decide, rfl, R_init_wibble_eq dll, rfl, rfl, rfl,
    rfl, rfl, rfl, ?_, ?_⟩
  · intro name f
    rw [R_dlsym_static _ rfl]
    exact registered_in_table_iff _ name f (findSome_one _ _)
  · intro hC hF hE
    refine ⟨fun name f => ?_, fun name => ⟨?_, ?_, ?_⟩⟩
    · rw [R_dlsym_static _ rfl]
      refine registered_in_table_iff _ name f ?_
      simp only [searchedTables, hC, hF, hE]
      exact findSome_second _ rfl _
    · rw [R_dlsym_static _ rfl]
      simp [R_getDLLRegisteredSymbol, searchedTables, hC, lookupRegistered]
    · rw [R_dlsym_static _ rfl]
      simp [R_getDLLRegisteredSymbol, searchedTables, hF, lookupRegistered]
    · rw [R_dlsym_static _ rfl]
      simp [R_getDLLRegisteredSymbol, searchedTables, hE, lookupRegistered]

/-- Claim C8 on a library as it is right after loading: before the hook its
own `R_init_wibble` symbol resolves dynamically, afterwards only the seven
registered names resolve. -/
theorem R_init_wibble_exposes_the_table_witness :
    R_dlsym Example.loaded "R_init_wibble" NativeSymbolType.R_ANY_SYM =
      some (DL_FUNC.other "R_init_wibble") ∧
    ∃ dll1 : DllInfo, R_init_wibble Example.loaded = some dll1 ∧
      dll1.CallSymbols.length = 7 ∧
      R_dlsym dll1 "_wibble_webbler" NativeSymbolType.R_ANY_SYM =
        some (DL_FUNC.stub Stub._wibble_webbler) ∧
      ∀ f : DL_FUNC, R_dlsym dll1 "R_init_wibble" NativeSymbolType.R_ANY_SYM ≠ some f := by
  obtain ⟨entries, dll1, h1, h2, -, h4, h5, -, -, -, -, -, -, h12⟩ :=
    R_init_wibble_exposes_the_table Example.loaded
  have hentries : entries = CallEntries.take 7 :=
    List.append_cancel_right (h1.symm.trans (by decide : CallEntries = _ ++ [sentinel]))
  subst hentries
  refine ⟨by decide, dll1, h4, by rw [h5]; exact h2, ?_, ?_⟩
  · exact ((h12 rfl rfl rfl).1 _ _).mpr
      ⟨⟨some "_wibble_webbler", some (DL_FUNC.stub Stub._wibble_webbler), 1⟩, by decide, rfl, rfl⟩
  · intro f hf
    obtain ⟨e, he, hname, -⟩ := ((h12 rfl rfl rfl).1 _ _).mp hf
    revert hname
    revert e
    decide

/-! ## The batch request executor -/

section BatchLemmas

variable {σ ε : Type}

theorem batchRows_getElem? (url query value path : CharacterVector) (i : Nat) (row : Row) :
    (batchRows url query value path)[i]? = some row ↔
      url[i]? = some row.1 ∧ query[i]? = some row.2.1 ∧ value[i]? = some row.2.2.1 ∧
        path[i]? = some row.2.2.2 := by
  simp only [batchRows, List.getElem?_zip_eq_some]

theorem batchRows_length (url query value path : CharacterVector) (n : Nat)
    (hu : url.length = n) (hq : query.length = n) (hv : value.length = n)
    (hp : path.length = n) : (batchRows url query value path).length = n := by
  simp [batchRows, hu, hq, hv, hp]

theorem requestRows_returns (text : CharacterVector → String)
    (api_call : String → CharacterVector → CharacterVector → String → Eff σ ε CharacterVector)
    (rows : List Row) (w : σ)
    (hret : ∀ (i : Nat) (row : Row), rows[i]? = some row →
      ∃ r w1, api_call row.1 [row.2.1] [row.2.2.1] row.2.2.2
        (worldBefore text api_call rows w i) = (Except.ok r, w1)) :
    ∃ out w1, requestRows text api_call rows w = (Except.ok out, w1) ∧
      out.length = rows.length ∧
      ∀ (i : Nat) (row : Row), rows[i]? = some row →
        ∃ r w2, api_call row.1 [row.2.1] [row.2.2.1] row.2.2.2
          (worldBefore text api_call rows w i) = (Except.ok r, w2) ∧ out[i]? = some (text r) := by
  induction rows generalizing w with
  | nil => exact ⟨[], w, rfl, rfl, fun i row h => by simp at h⟩
  | cons row rest ih =>
    obtain ⟨r, w1, hr⟩ := hret 0 row (List.getElem?_cons_zero ..)
    have hrow : requestRow text api_call row w = (Except.ok (text r), w1) := by
      simp only [worldBefore] at hr
      simp only [requestRow, bind, Eff.andThen, hr, pure, Eff.ret]
    obtain ⟨out, w2, hout, hlen, hall⟩ := ih w1 (fun i row1 h => by
      have := hret (i + 1) row1 (by simpa using h)
      simpa only [worldBefore, hrow] using this)
    refine ⟨text r :: out, w2, ?_, by simp [hlen], ?_⟩
    · simp only [requestRows, bind, Eff.andThen, hrow, hout, pure, Eff.ret]
    · intro i row1 h
      cases i with
      | zero =>
        simp only [List.getElem?_cons_zero, Option.some.injEq] at h
        subst h
        exact ⟨r, w1, hr, List.getElem?_cons_zero ..⟩
      | succ j =>
        obtain ⟨r1, w3, h1, h2⟩ := hall j row1 (by simpa using h)
        exact ⟨r1, w3, by simpa only [worldBefore, hrow] using h1, by simpa using h2⟩

end BatchLemmas

/-- Claim C4: `api_calls` returns one result per input row.  For arrays of a
common length `n`, when the request of every row returns, `api_calls` returns
a character vector of length exactly `n` whose `i`-th element is (the text
of) the result of `api_call` on the `i`-th row, `(url[i], query[i], value[i],
path[i])`, issued after the requests of the rows before it. -/
theorem api_calls_one_result_per_row {σ ε : Type} (reject : ε)
    (text : CharacterVector → String)
    (api_call : String → CharacterVector → CharacterVector → String → Eff σ ε CharacterVector)
    (url query value path : CharacterVector) (n : Nat) (w : σ)
    (hu : url.length = n) (hq : query.length = n) (hv : value.length = n)
    (hp : path.length = n)
    (hret : ∀ (i : Nat) (u q v p : String),
      url[i]? = some u → query[i]? = some q → value[i]? = some v → path[i]? = some p →
      ∃ r w1, api_call u [q] [v] p
        (worldBefore text api_call (batchRows url query value path) w i) = (Except.ok r, w1)) :
    ∃ out w1, api_calls reject text api_call url query value path w = (Except.ok out, w1) ∧
      out.length = n ∧
      ∀ (i : Nat) (u q v p : String),
        url[i]? = some u → query[i]? = some q → value[i]? = some v → path[i]? = some p →
        ∃ r w2, api_call u [q] [v] p
          (worldBefore text api_call (batchRows url query value path) w i) = (Except.ok r, w2) ∧
          out[i]? = some (text r) := by
  obtain ⟨out, w1, hout, hlen, hall⟩ :=
    requestRows_returns text api_call (batchRows url query value path) w (fun i row h => by
      obtain ⟨h1, h2, h3, h4⟩ := (batchRows_getElem? url query value path i row).mp h
      exact hret i _ _ _ _ h1 h2 h3 h4)
  refine ⟨out, w1, ?_, by rw [hlen]; exact batchRows_length url query value path n hu hq hv hp, ?_⟩
  · simp only [api_calls, hu, hq, hv, hp, and_self, if_true]
    exact hout
  · intro i u q v p h1 h2 h3 h4
    exact hall i (u, q, v, p) ((batchRows_getElem? url query value path i (u, q, v, p)).mpr
      ⟨h1, h2, h3, h4⟩)

/-- Claim C4 on two rows: the result has two elements, the second one the
answer to the second row. -/
theorem api_calls_one_result_per_row_witness :
    ∃ out w1,
      api_calls "arrays of unequal length" String.join Example.api_call
        ["u1", "u2"] ["q1", "q2"] ["v1", "v2"] ["/p1", "/p2"] [] = (Except.ok out, w1) ∧
      out.length = 2 ∧
      ∀ (i : Nat) (u q v p : String),
        ["u1", "u2"][i]? = some u → ["q1", "q2"][i]? = some q → ["v1", "v2"][i]? = some v →
        ["/p1", "/p2"][i]? = some p →
        ∃ r w2, Example.api_call u [q] [v] p
          (worldBefore String.join Example.api_call
            (batchRows ["u1", "u2"] ["q1", "q2"] ["v1", "v2"] ["/p1", "/p2"]) [] i) =
            (Except.ok r, w2) ∧
          out[i]? = some (String.join r) :=
  api_calls_one_result_per_row "arrays of unequal length" String.join Example.api_call
    ["u1", "u2"] ["q1", "q2"] ["v1", "v2"] ["/p1", "/p2"] 2 [] rfl rfl rfl rfl
    (fun _ _ _ _ _ _ _ _ _ => ⟨_, _, rfl⟩)

/-- Claim C5: `api_calls` enforces the equal length of its arrays.  When
`url`, `query`, `value` and `path` do not all have the same length,
`api_calls` throws instead of returning a vector, and has issued no request
(the world is as it was); called through the stub with host arguments that
convert to such arrays, which the stub passes on as they are, the call ends
with that error raised in the host and no value returned. -/
theorem api_calls_rejects_unequal_lengths {σ ε : Type} (R : Rcpp ε) (H : Runtime σ)
    (N : Natives σ ε R) (reject : ε) (text : CharacterVector → String)
    (hN : N.api_calls = api_calls reject text N.api_call)
    (urlSEXP querySEXP valueSEXP pathSEXP : R.SEXP) (url query value path : CharacterVector)
    (h1 : R.as_CharacterVector urlSEXP = Except.ok url)
    (h2 : R.as_CharacterVector querySEXP = Except.ok query)
    (h3 : R.as_CharacterVector valueSEXP = Except.ok value)
    (h4 : R.as_CharacterVector pathSEXP = Except.ok path)
    (hlen : ¬ (url.length = query.length ∧ query.length = value.length ∧
      value.length = path.length)) :
    (∀ w : σ, api_calls reject text N.api_call url query value path w = (Except.error reject, w)) ∧
    (∀ w : σ, _wibble_api_calls R H N urlSEXP querySEXP valueSEXP pathSEXP w =
      (Outcome.raised reject, H.exitRNGScope (H.enterRNGScope w))) ∧
    (∀ (w : σ) (v : R.SEXP),
      (_wibble_api_calls R H N urlSEXP querySEXP valueSEXP pathSEXP w).1 ≠ Outcome.returned v) := by
  have hthrow : ∀ w : σ,
      api_calls reject text N.api_call url query value path w = (Except.error reject, w) := by
    intro w
    simp only [api_calls, hlen, if_false, Eff.throw]
  have hstub : ∀ w : σ, _wibble_api_calls R H N urlSEXP querySEXP valueSEXP pathSEXP w =
      (Outcome.raised reject, H.exitRNGScope (H.enterRNGScope w)) := by
    intro w
    rw [api_calls_stub_ok R H N urlSEXP querySEXP valueSEXP pathSEXP url query value path w
      h1 h2 h3 h4, hN]
    simp only [oneCall, hthrow]
  refine ⟨hthrow, hstub, fun w v => ?_⟩
  rw [hstub]
  simp

/-- Claim C5 on a batch whose `query` array is one element short. -/
theorem api_calls_rejects_unequal_lengths_witness :
    (∀ w : List String,
      api_calls "arrays of unequal length" String.join Example.natives.api_call
        ["u1", "u2"] ["q1"] ["v1", "v2"] ["/p1", "/p2"] w =
          (Except.error "arrays of unequal length", w)) ∧
    (∀ w : List String,
      _wibble_api_calls Example.host Example.runtime Example.natives
        (Example.Value.character ["u1", "u2"]) (Example.Value.character ["q1"])
        (Example.Value.character ["v1", "v2"]) (Example.Value.character ["/p1", "/p2"]) w =
      (Outcome.raised "arrays of unequal length",
        Example.runtime.exitRNGScope (Example.runtime.enterRNGScope w))) ∧
    (∀ (w : List String) (v : Example.Value),
      (_wibble_api_calls Example.host Example.runtime Example.natives
        (Example.Value.character ["u1", "u2"]) (Example.Value.character ["q1"])
        (Example.Value.character ["v1", "v2"]) (Example.Value.character ["/p1", "/p2"]) w).1 ≠
      Outcome.returned v) :=
  api_calls_rejects_unequal_lengths Example.host Example.runtime Example.natives
    "arrays of unequal length" String.join rfl
    (Example.Value.character ["u1", "u2"]) (Example.Value.character ["q1"])
    (Example.Value.character ["v1", "v2"]) (Example.Value.character ["/p1", "/p2"])
    ["u1", "u2"] ["q1"] ["v1", "v2"] ["/p1", "/p2"] rfl rfl rfl rfl (by decide)

end Wibble
